import Mathlib

/-!
# Verification of the m3u8 downloader core

Shallow embedding of the repository's two download pipelines and their
supporting routines:

* `app.py` — the Flask worker `download_m3u8` and the SSRF guard
  `is_safe_url` (built on CPython's `urllib.parse` and `ipaddress`);
* `downloader.py` — `DownloadTaskOptions`, `SegmentStatus`,
  `DownloadTask` (`start`, `retry_segment`, `_prepare_segments`,
  `_download_segments`, `_download_single_segment`, `_resolve_key`,
  `_run`) and `DownloadManager.create_task`.

External effects (the system resolver, the HTTP client, the AES cipher,
the wall clock, the thread scheduler) are passed in as explicit
parameters; the file system is a record of byte lists.  Machine `int`s
are `Nat`/`Int`; `bytes` values are `List Nat`.
-/

namespace M3u8V

/-- Big-endian byte encoding: Python `n.to_bytes(len, "big")` for values
that fit in `len` bytes. -/
def toBytesBE (len n : Nat) : List Nat :=
  (List.range len).map (fun k => n / 256 ^ (len - 1 - k) % 256)

/-- Value of one hexadecimal digit, `none` on a non-hex character. -/
def hexVal (c : Char) : Option Nat :=
  if '0' ≤ c ∧ c ≤ '9' then some (c.toNat - 48)
  else if 'a' ≤ c ∧ c ≤ 'f' then some (c.toNat - 87)
  else if 'A' ≤ c ∧ c ≤ 'F' then some (c.toNat - 55)
  else none

/-- Core of Python `bytes.fromhex`: pairs of hex digits, single spaces
allowed between pairs, anything else fails. -/
def fromHexList : List Char → Option (List Nat)
  | [] => some []
  | ' ' :: rest => fromHexList rest
  | c1 :: c2 :: rest =>
    match hexVal c1, hexVal c2 with
    | some a, some b => (fromHexList rest).map (fun l => (a * 16 + b) :: l)
    | _, _ => none
  | _ => none

/-- Python `bytes.fromhex` on a string. -/
def fromHexPy (s : String) : Option (List Nat) := fromHexList s.toList

/-- Split a character list on a separator; always returns at least one
part (Python `str.split(sep)`). -/
def splitOnCharAux (sep : Char) : List Char → List Char → List (List Char)
  | [], acc => [acc.reverse]
  | c :: rest, acc =>
    if c = sep then acc.reverse :: splitOnCharAux sep rest []
    else splitOnCharAux sep rest (c :: acc)

def splitOnChar (sep : Char) (l : List Char) : List (List Char) :=
  splitOnCharAux sep l []

/-- Python `str.zfill(width)` for unsigned content (the inputs here are
hex strings; a sign character would make the subsequent `fromhex` fail
in both worlds). -/
def zfill (width : Nat) (l : List Char) : List Char :=
  List.replicate (width - l.length) '0' ++ l

/-- ASCII whitespace in the sense of Python `str.strip()`. -/
def isPySpace (c : Char) : Bool :=
  c = ' ' || c = '\t' || c = '\n' || c = '\r' || c = '\x0b' || c = '\x0c'

/-- Python `str.strip()`. -/
def stripChars (l : List Char) : List Char :=
  ((l.dropWhile isPySpace).reverse.dropWhile isPySpace).reverse

/-- Python `str.upper()` (ASCII, which is all the method strings
use). -/
def pyUpper (s : String) : String :=
  String.mk (s.toList.map Char.toUpper)

/-! ## IP addresses (CPython `ipaddress` model)

An address is an IPv4 value (`< 2^32`) or an IPv6 value (`< 2^128`).
The classification predicates transcribe CPython's `_private_networks`,
`_reserved_networks` and the loopback / link-local / multicast
constants for both families. -/

inductive IPAddr where
  | v4 (a : Nat)
  | v6 (a : Nat)
deriving DecidableEq, Repr

/-- Membership of address `a` in the network `net/plen` over a `w`-bit
address space. -/
def inNet (w a net plen : Nat) : Bool :=
  a / 2 ^ (w - plen) == net / 2 ^ (w - plen)

def v4IsLoopback (a : Nat) : Bool := inNet 32 a 0x7F000000 8
def v4IsLinkLocal (a : Nat) : Bool := inNet 32 a 0xA9FE0000 16
def v4IsMulticast (a : Nat) : Bool := inNet 32 a 0xE0000000 4
def v4IsReserved (a : Nat) : Bool := inNet 32 a 0xF0000000 4

def v4IsPrivate (a : Nat) : Bool :=
  inNet 32 a 0x00000000 8 || inNet 32 a 0x0A000000 8 ||
  inNet 32 a 0x7F000000 8 || inNet 32 a 0xA9FE0000 16 ||
  inNet 32 a 0xAC100000 12 || inNet 32 a 0xC0000000 29 ||
  inNet 32 a 0xC00000AA 31 || inNet 32 a 0xC0000200 24 ||
  inNet 32 a 0xC0A80000 16 || inNet 32 a 0xC6120000 15 ||
  inNet 32 a 0xC6336400 24 || inNet 32 a 0xCB007100 24 ||
  inNet 32 a 0xF0000000 4 || inNet 32 a 0xFFFFFFFF 32

def v6IsLoopback (a : Nat) : Bool := a == 1
def v6IsLinkLocal (a : Nat) : Bool :=
  inNet 128 a 0xfe800000000000000000000000000000 10
def v6IsMulticast (a : Nat) : Bool :=
  inNet 128 a 0xff000000000000000000000000000000 8

def v6IsPrivate (a : Nat) : Bool :=
  a == 1 || a == 0 ||
  inNet 128 a 0x00000000000000000000ffff00000000 96 ||
  inNet 128 a 0x01000000000000000000000000000000 64 ||
  inNet 128 a 0x20010000000000000000000000000000 23 ||
  inNet 128 a 0x20010db8000000000000000000000000 32 ||
  inNet 128 a 0x20010010000000000000000000000000 28 ||
  inNet 128 a 0xfc000000000000000000000000000000 7 ||
  inNet 128 a 0xfe800000000000000000000000000000 10

def v6IsReserved (a : Nat) : Bool :=
  inNet 128 a 0x00000000000000000000000000000000 8 ||
  inNet 128 a 0x01000000000000000000000000000000 8 ||
  inNet 128 a 0x02000000000000000000000000000000 7 ||
  inNet 128 a 0x04000000000000000000000000000000 6 ||
  inNet 128 a 0x08000000000000000000000000000000 5 ||
  inNet 128 a 0x10000000000000000000000000000000 4 ||
  inNet 128 a 0x40000000000000000000000000000000 3 ||
  inNet 128 a 0x60000000000000000000000000000000 3 ||
  inNet 128 a 0x80000000000000000000000000000000 3 ||
  inNet 128 a 0xa0000000000000000000000000000000 3 ||
  inNet 128 a 0xc0000000000000000000000000000000 3 ||
  inNet 128 a 0xe0000000000000000000000000000000 4 ||
  inNet 128 a 0xf0000000000000000000000000000000 5 ||
  inNet 128 a 0xf8000000000000000000000000000000 6 ||
  inNet 128 a 0xfe000000000000000000000000000000 9

def IPAddr.isLoopback : IPAddr → Bool
  | .v4 a => v4IsLoopback a
  | .v6 a => v6IsLoopback a

def IPAddr.isLinkLocal : IPAddr → Bool
  | .v4 a => v4IsLinkLocal a
  | .v6 a => v6IsLinkLocal a

def IPAddr.isPrivate : IPAddr → Bool
  | .v4 a => v4IsPrivate a
  | .v6 a => v6IsPrivate a

def IPAddr.isReserved : IPAddr → Bool
  | .v4 a => v4IsReserved a
  | .v6 a => v6IsReserved a

def IPAddr.isMulticast : IPAddr → Bool
  | .v4 a => v4IsMulticast a
  | .v6 a => v6IsMulticast a

/-- The classification test applied by `is_safe_url` (app.py lines
70-77): an address passes when it is none of private, loopback,
link-local, reserved. -/
def ipPasses (a : IPAddr) : Bool :=
  !(a.isPrivate || a.isLoopback || a.isLinkLocal || a.isReserved)

/-! ## Textual IP parsing (CPython `ipaddress.ip_address`) -/

/-- One dotted-quad octet: decimal digits only, at most 3, no leading
zero, value at most 255. -/
def parseOctet (s : List Char) : Option Nat :=
  if s.isEmpty then none
  else if !(s.all Char.isDigit) then none
  else if s.length > 3 then none
  else if s.length > 1 ∧ s.head? = some '0' then none
  else
    let v := s.foldl (fun acc c => acc * 10 + (c.toNat - 48)) 0
    if v ≤ 255 then some v else none

/-- CPython `IPv4Address` textual parsing. -/
def parseIPv4 (s : String) : Option Nat :=
  match splitOnChar '.' s.toList with
  | [a, b, c, d] =>
    match parseOctet a, parseOctet b, parseOctet c, parseOctet d with
    | some x, some y, some z, some w =>
      some (((x * 256 + y) * 256 + z) * 256 + w)
    | _, _, _, _ => none
  | _ => none

/-- One IPv6 hextet: hex digits only, 1 to 4 of them. -/
def parseHextet (s : List Char) : Option Nat :=
  if s.isEmpty then none
  else if s.length > 4 then none
  else if !(s.all (fun c => (hexVal c).isSome)) then none
  else some (s.foldl (fun acc c => acc * 16 + (hexVal c).getD 0) 0)

/-- Accumulate a run of hextets big-endian. -/
def foldHextets (parts : List (List Char)) : Option Nat :=
  parts.foldl
    (fun acc p =>
      match acc, parseHextet p with
      | some v, some h => some (v * 65536 + h)
      | _, _ => none)
    (some 0)

def hexDigitChar (n : Nat) : Char :=
  if n < 10 then Char.ofNat (48 + n) else Char.ofNat (87 + n)

/-- Python `'%x' % n` for `n < 65536`. -/
def natToHexChars (n : Nat) : List Char :=
  let l := [n / 4096 % 16, n / 256 % 16, n / 16 % 16, n % 16].map hexDigitChar
  match l.dropWhile (fun c => c = '0') with
  | [] => ['0']
  | l' => l'

/-- CPython `IPv6Address._ip_int_from_string`: split on `:`, optional
embedded IPv4 tail, at most one `::` compression. -/
def parseIPv6 (s : String) : Option Nat := do
  let parts0 := splitOnChar ':' s.toList
  if parts0.length < 3 then none
  else
    let parts ←
      match parts0.getLast? with
      | some lastp =>
        if lastp.contains '.' then do
          let v4 ← parseIPv4 (String.mk lastp)
          pure (parts0.dropLast ++
            [natToHexChars (v4 / 65536), natToHexChars (v4 % 65536)])
        else pure parts0
      | none => none
    let n := parts.length
    if n > 9 then none
    else
      match (List.range n).filter
          (fun i => 0 < i ∧ i + 1 < n ∧ parts.get? i = some []) with
      | [] =>
        if n ≠ 8 then none
        else if parts.head? = some [] then none
        else if parts.getLast? = some [] then none
        else foldHextets parts
      | [si] => do
        let partsHi ←
          if parts.head? = some [] then
            if si = 1 then pure 0 else none
          else pure si
        let partsLo ←
          if parts.getLast? = some [] then
            if n - si - 1 = 1 then pure 0 else none
          else pure (n - si - 1)
        if 8 < partsHi + partsLo + 1 then none
        else do
          let hv ← foldHextets (parts.take partsHi)
          let lv ← foldHextets (parts.drop (n - partsLo))
          pure (hv * 65536 ^ (8 - partsHi) + lv)
      | _ => none

/-- CPython `ipaddress.ip_address` on a string: IPv4 first, then
IPv6. -/
def ip_address (s : String) : Option IPAddr :=
  match parseIPv4 s with
  | some a => some (.v4 a)
  | none => (parseIPv6 s).map .v6

/-! ## `urlparse(url).hostname` (CPython `urllib.parse`) -/

def isSchemeChar (c : Char) : Bool :=
  c.isAlphanum || c = '+' || c = '-' || c = '.'

def findColonIdx : List Char → Option Nat
  | [] => none
  | c :: rest =>
    if c = ':' then some 0 else (findColonIdx rest).map (fun i => i + 1)

/-- `urlsplit` scheme removal: strip `scheme:` when the part before the
first colon is a valid scheme token. -/
def dropScheme (l : List Char) : List Char :=
  match findColonIdx l with
  | none => l
  | some 0 => l
  | some i =>
    match l.take i with
    | [] => l
    | c0 :: rest0 =>
      if c0.isAlpha ∧ rest0.all isSchemeChar then l.drop (i + 1) else l

/-- `urlsplit` netloc extraction; raises `ValueError` ("Invalid IPv6
URL") on mismatched brackets, modelled as `.error`. -/
def netlocSplit (l : List Char) : Except Unit (List Char) :=
  if l.take 2 = ['/', '/'] then
    let netloc := (l.drop 2).takeWhile (fun c => c ≠ '/' ∧ c ≠ '?' ∧ c ≠ '#')
    if (netloc.contains '[' ∧ !netloc.contains ']') ∨
       (netloc.contains ']' ∧ !netloc.contains '[') then .error ()
    else .ok netloc
  else .ok []

/-- `urlparse(url).hostname`: userinfo after the last `@` is dropped,
brackets delimit IPv6 literals, the port and any `%zone` are dropped,
result lower-cased; empty host is `None`.  `.error` models the
`ValueError` that `urlsplit` can raise. -/
def hostnameOf (url : String) : Except Unit (Option String) := do
  let netloc ← netlocSplit (dropScheme url.toList)
  let hostinfo := (splitOnChar '@' netloc).getLastD netloc
  let host :=
    if hostinfo.contains '[' then
      ((hostinfo.dropWhile (fun c => c ≠ '[')).drop 1).takeWhile (fun c => c ≠ ']')
    else hostinfo.takeWhile (fun c => c ≠ ':')
  if host.isEmpty then pure none
  else pure (some (String.mk ((host.takeWhile (fun c => c ≠ '%')).map Char.toLower)))

/-! ## `is_safe_url` (app.py lines 37-81) -/

/-- The system resolver (`socket.getaddrinfo`): `none` models
`socket.gaierror`; each entry is the first component of a `sockaddr`
tuple, `none` modelling an empty tuple (skipped by the loop). -/
abbrev Resolver := String → Option (List (Option String))

/-- The per-entry loop of app.py lines 55-65: skip empty sockaddrs,
parse each address, fail (`return False`) on the first unparsable
one. -/
def parseSockaddrs : List (Option String) → Option (List IPAddr)
  | [] => some []
  | none :: rest => parseSockaddrs rest
  | some s :: rest =>
    match ip_address s with
    | none => none
    | some a => (parseSockaddrs rest).map (fun l => a :: l)

/-- app.py lines 45-68: a literal IP host is used directly; otherwise
all resolver answers are collected; resolver failure, an unparsable
answer or an empty answer set all yield `none` (= `return False`). -/
def gatherAddresses (r : Resolver) (host : String) : Option (List IPAddr) :=
  match ip_address host with
  | some a => some [a]
  | none =>
    match r host with
    | none => none
    | some entries =>
      match parseSockaddrs entries with
      | none => none
      | some addrs => if addrs = [] then none else some addrs

/-- `is_safe_url(url)` (app.py lines 37-81).  The outer
`try/except Exception: return False` catches the `ValueError` that
`urlparse` can raise; every internal failure maps to `false`. -/
def is_safe_url (r : Resolver) (url : String) : Bool :=
  match hostnameOf url with
  | .error _ => false
  | .ok none => false
  | .ok (some host) =>
    match gatherAddresses r host with
    | none => false
    | some addrs => addrs.all ipPasses

/-- A resolver that fails on every host (used for closed concrete
statements whose URL has a literal IP host, where the resolver is never
consulted). -/
def noResolver : Resolver := fun _ => none

/-! ## downloader.py data model -/

/-- Segment lifecycle strings of `SegmentStatus.status`. -/
inductive SegState where
  | pending
  | downloading
  | completed
  | failed
deriving DecidableEq, Repr

/-- Task lifecycle strings of `DownloadTask.status`. -/
inductive TStatus where
  | ready
  | preparing
  | downloading
  | paused
  | completed
  | error
  | stopped
  | forced
deriving DecidableEq, Repr

/-- `DownloadTaskOptions` (downloader.py lines 32-63).  `headers` only
feeds the HTTP client and is dropped; durations and retry counts keep
their Python `int` types. -/
structure DownloadTaskOptions where
  url : String
  title : String
  output_format : String := "ts"
  start_segment : Option Int := none
  end_segment : Option Int := none
  stream_to_disk : Bool := true
  max_retries : Int := 3
  decrypt : Bool := true
deriving DecidableEq, Repr

/-- `DownloadTaskOptions.validate` (downloader.py lines 51-63). -/
def DownloadTaskOptions.validate (o : DownloadTaskOptions) : Except String Unit :=
  if o.url = "" then .error "url is required"
  else if o.output_format ≠ "ts" ∧ o.output_format ≠ "mp4" then
    .error "output_format must be 'ts' or 'mp4'"
  else
    match o.start_segment with
    | some s =>
      if s < 1 then .error "start_segment must be >= 1"
      else
        match o.end_segment with
        | some e =>
          if e < s then .error "end_segment must be greater or equal to start_segment"
          else .ok ()
        | none => .ok ()
    | none => .ok ()

/-- `SegmentStatus` (downloader.py lines 66-88).  `duration` is a
decimal number in the playlist; it is never computed with. -/
structure SegmentStatus where
  index : Nat
  url : String
  duration : Option ℚ
  key_uri : Option String
  iv : Option (List Nat)
  method : Option String
  status : SegState := .pending
  size : Nat := 0
  retries : Nat := 0
  error : Option String := none
deriving DecidableEq, Repr

/-! ## Parsed playlist model (library `m3u8`)

The `m3u8` library hands both pipelines a parsed media playlist:
ordered segments, each optionally carrying the active `EXT-X-KEY`, the
playlist-level key list, and the media sequence base. -/

structure M3Key where
  method : Option String
  uri : Option String
  iv : Option String
  absolute_uri : Option String := none
deriving DecidableEq, Repr

structure M3Segment where
  uri : String
  duration : Option ℚ := none
  key : Option M3Key := none
  absolute_uri : Option String := none
deriving DecidableEq, Repr

structure M3Playlist where
  segments : List M3Segment
  keys : List M3Key := []
  media_sequence : Nat := 0
deriving DecidableEq, Repr

/-- `DownloadTask._parse_iv` (downloader.py lines 323-329): strip,
drop a single `0x`/`0X` prefix, left-pad to 32 hex chars, `fromhex`;
`none` models the uncaught `ValueError`. -/
def parse_iv (raw : String) : Option (List Nat) :=
  let value := stripChars raw.toList
  let value :=
    if value.take 2 = ['0', 'x'] ∨ value.take 2 = ['0', 'X'] then value.drop 2
    else value
  fromHexList (zfill 32 value)

/-- Truthiness of Python `self.options.start_segment` /
`end_segment` (`None` and `0` are falsy). -/
def optTruthy : Option Int → Bool
  | none => false
  | some v => v ≠ 0

/-- Construction of one prepared `SegmentStatus` (downloader.py lines
298-318), for a segment at 1-based playlist `position` that will get
dense index `idx` in the prepared list.  The active key is
`segment.key or playlist.keys[-1]`; the implicit IV is
`position.to_bytes(16, "big")` — the playlist's media sequence is not
consulted.  `urljoinF` stands for `urllib.parse.urljoin`. -/
def mkPrepared (urljoinF : String → String → String) (base : String)
    (position idx : Nat) (seg : M3Segment) (activeKey : Option M3Key) :
    Except String SegmentStatus := do
  let info ←
    match activeKey with
    | some k =>
      match k.uri with
      | some u =>
        let key_uri := k.absolute_uri.getD (urljoinF base u)
        let method := pyUpper (k.method.getD "")
        let iv ←
          match k.iv with
          | some rawIv =>
            if rawIv = "" then pure (toBytesBE 16 position)
            else
              match parse_iv rawIv with
              | some bs => pure bs
              | none => Except.error "non-hexadecimal number found in fromhex() arg"
          | none => pure (toBytesBE 16 position)
        pure (some key_uri, some iv, some method)
      | none => pure ((none : Option String), (none : Option (List Nat)), (none : Option String))
    | none => pure ((none : Option String), (none : Option (List Nat)), (none : Option String))
  pure
    { index := idx
      url := seg.absolute_uri.getD (urljoinF base seg.uri)
      duration := seg.duration
      key_uri := info.1
      iv := info.2.1
      method := info.2.2 }

/-- The enumeration loop of `_prepare_segments` (downloader.py lines
289-318): skip positions before `start_segment`, break after
`end_segment`, accumulate prepared records with dense indices. -/
def prepareLoop (urljoinF : String → String → String) (base : String)
    (o : DownloadTaskOptions) (keys : List M3Key) :
    List M3Segment → Nat → List SegmentStatus → Except String (List SegmentStatus)
  | [], _, acc => .ok acc
  | seg :: rest, idx, acc => do
    let position := idx + 1
    if optTruthy o.start_segment ∧ (position : Int) < o.start_segment.getD 0 then
      prepareLoop urljoinF base o keys rest (idx + 1) acc
    else if optTruthy o.end_segment ∧ (position : Int) > o.end_segment.getD 0 then
      .ok acc
    else do
      let activeKey := seg.key <|> keys.getLast?
      let st ← mkPrepared urljoinF base position acc.length seg activeKey
      prepareLoop urljoinF base o keys rest (idx + 1) (acc ++ [st])

/-- `DownloadTask._prepare_segments` (downloader.py lines 289-321). -/
def prepare_segments (urljoinF : String → String → String) (base : String)
    (o : DownloadTaskOptions) (pl : M3Playlist) : Except String (List SegmentStatus) :=
  prepareLoop urljoinF base o pl.keys pl.segments 0 []

/-! ## Downloader segment pipeline (`DownloadTask._download_segments`)

External effects are parameters: `Net` is the HTTP client (`GET url`
returning status code and body, after the 30-second-timeout plumbing),
`Aes` is `AES.new(key, MODE_CBC, iv).decrypt` (`none` models the
`ValueError` the cipher constructor raises on a bad key/IV length), and
`Sched` gives the externally-driven event flags observed at each loop
checkpoint (`stop`/`force`/`pause` are the `threading.Event` states;
`pauseAfterWait` is the result of `pause_event.wait(0.2)`). -/

structure Flags where
  stop : Bool := false
  force : Bool := false
  pause : Bool := true
  pauseAfterWait : Bool := true
deriving DecidableEq, Repr

abbrev Sched := Nat → Flags
abbrev Net := String → Nat × List Nat
abbrev Aes := List Nat → List Nat → List Nat → Option (List Nat)

/-- Exceptions inside the worker: `DownloadError` is retried by the
loop; any other Python exception (`requests.HTTPError` from
`raise_for_status`, cipher errors) propagates to `_run`. -/
inductive DLErr where
  | downloadError (msg : String)
  | pyError (msg : String)
deriving DecidableEq, Repr

/-- Mutable task state visible to the segment loop.  `tempFile` is the
contents of `<task_id>.download` (`none` = file absent).  `trace`
records every URL passed to the HTTP client, in order; `sleeps` counts
the 1-second retry sleeps; `iter` counts loop checkpoints (indexing
into the schedule). -/
structure DLState where
  segments : List SegmentStatus
  cursor : Nat := 0
  status : TStatus := .downloading
  message : Option String := none
  tempFile : Option (List Nat) := none
  currentKeyUri : Option String := none
  currentKeyVal : Option (List Nat) := none
  total_bytes : Nat := 0
  buffer : List (List Nat) := []
  trace : List String := []
  sleeps : Nat := 0
  iter : Nat := 0
  ffmpegMissing : Bool := false
deriving DecidableEq, Repr

/-- The task's output files: `tsFile` is the contents of
`<safe_title>.ts`, `partFile` of `<safe_title>.partial.ts`, `mp4File`
of `<safe_title>.mp4` (`none` = file absent).  Only the finalisation
tail of `_download_segments` and `_convert_to_mp4` touch these. -/
structure TaskFiles where
  tsFile : Option (List Nat) := none
  partFile : Option (List Nat) := none
  mp4File : Option (List Nat) := none
deriving DecidableEq, Repr

/-- `DownloadTask._resolve_key` (downloader.py lines 412-424): no
decryption or no key URI → `(None, None)`; cache miss (different URI or
empty cache) fetches the key with `raise_for_status` (an HTTP error
here is a `requests.HTTPError`, not a `DownloadError`, and leaves the
cache unchanged).  Returns the key/IV pair, the new
`(_current_key_uri, _current_key_value)` cache, and the URLs GETted. -/
def resolveKey (net : Net) (o : DownloadTaskOptions)
    (cache : Option String × Option (List Nat)) (seg : SegmentStatus) :
    Except DLErr (Option (List Nat) × Option (List Nat)) ×
      (Option String × Option (List Nat)) × List String :=
  if ¬o.decrypt ∨ seg.key_uri = none then (.ok (none, none), cache, [])
  else
    match seg.key_uri with
    | none => (.ok (none, none), cache, [])
    | some ku =>
      if cache.1 ≠ some ku ∨ cache.2 = none then
        let (code, body) := net ku
        if code ≥ 400 then
          (.error (.pyError ("HTTP Error " ++ toString code)), cache, [ku])
        else (.ok (some body, seg.iv), (some ku, some body), [ku])
      else (.ok (cache.2, seg.iv), cache, [])

/-- `DownloadTask._download_single_segment` (downloader.py lines
394-410): mark the segment `downloading`, GET its URL with no safety
filter, `DownloadError` on HTTP status ≥ 400, resolve the key, decrypt
only when key, IV and `method == "AES-128"` are all present and
truthy; on success add the payload length to `total_bytes`. -/
def downloadSingleSegment (net : Net) (aes : Aes) (o : DownloadTaskOptions)
    (st : DLState) : Except DLErr (List Nat) × DLState :=
  match st.segments.get? st.cursor with
  | none => (.error (.pyError "list index out of range"), st)
  | some seg0 =>
    let seg := {seg0 with status := .downloading}
    let (code, body) := net seg.url
    if code ≥ 400 then
      (.error (.downloadError ("HTTP " ++ toString code)),
       {st with segments := st.segments.set st.cursor seg,
                trace := st.trace ++ [seg.url]})
    else
      match resolveKey net o (st.currentKeyUri, st.currentKeyVal) seg with
      | (.error e, cache1, tr) =>
        (.error e,
         {st with segments := st.segments.set st.cursor seg,
                  trace := st.trace ++ [seg.url] ++ tr,
                  currentKeyUri := cache1.1, currentKeyVal := cache1.2})
      | (.ok kv, cache1, tr) =>
        let payload :=
          match kv.1, kv.2 with
          | some k, some iv =>
            if k ≠ [] ∧ iv ≠ [] ∧ seg.method = some "AES-128" then aes k iv body
            else some body
          | _, _ => some body
        match payload with
        | none =>
          (.error (.pyError "Data must be padded to 16 byte boundary in CBC mode"),
           {st with segments := st.segments.set st.cursor seg,
                    trace := st.trace ++ [seg.url] ++ tr,
                    currentKeyUri := cache1.1, currentKeyVal := cache1.2})
        | some p =>
          (.ok p,
           {st with segments := st.segments.set st.cursor seg,
                    trace := st.trace ++ [seg.url] ++ tr,
                    currentKeyUri := cache1.1, currentKeyVal := cache1.2,
                    total_bytes := st.total_bytes + p.length})

/-- How one pass of the `while` loop ends. -/
inductive LoopExit where
  | fellThrough
  | stopRet
  | raised (e : DLErr)
deriving DecidableEq, Repr

inductive IterOut where
  | next (st : DLState)
  | exit (st : DLState) (e : LoopExit)
deriving DecidableEq, Repr

/-- The task state carried by a loop-iteration outcome. -/
def IterOut.stateOf : IterOut → DLState
  | .next st => st
  | .exit st _ => st

/-- The statuses a task holds while its loop body is running between
checkpoints. -/
def liveStatus (st : DLState) : Prop :=
  st.status = .downloading ∨ st.status = .paused

/-- The `except DownloadError` handler of the loop body (downloader.py
lines 362-370): bump the segment's retry count, mark it failed with the
error text, and either re-raise as a task-level error (when retries
exceed `max_retries`) or count a 1-second sleep and leave the cursor in
place. -/
def segmentFailure (o : DownloadTaskOptions) (st1 : DLState)
    (seg : SegmentStatus) (m : String) : IterOut :=
  let seg1 := {seg with retries := seg.retries + 1, status := .failed, error := some m}
  let st2 := {st1 with segments := st1.segments.set st1.cursor seg1}
  if (seg1.retries : Int) > o.max_retries then
    .exit st2 (.raised (.downloadError
      ("Segment " ++ toString seg1.index ++ " failed after " ++
       toString seg1.retries ++ " retries: " ++ m)))
  else .next {st2 with sleeps := st2.sleeps + 1}

/-- The `try/except DownloadError` body of the loop (downloader.py
lines 351-372): success commits the segment, appends (or buffers) the
payload and advances the cursor; a `DownloadError` is handled by
`segmentFailure`; any other exception propagates. -/
def processSegment (net : Net) (aes : Aes) (o : DownloadTaskOptions)
    (st : DLState) : IterOut :=
  match downloadSingleSegment net aes o st with
  | (.ok payload, st1) =>
    match st1.segments.get? st1.cursor with
    | none => .exit st1 (.raised (.pyError "list index out of range"))
    | some seg =>
      let seg := {seg with status := .completed, error := none, size := payload.length}
      let st2 := {st1 with segments := st1.segments.set st1.cursor seg}
      let st3 :=
        if o.stream_to_disk then
          {st2 with tempFile := some (st2.tempFile.getD [] ++ payload)}
        else {st2 with buffer := st2.buffer ++ [payload]}
      .next {st3 with cursor := st3.cursor + 1}
  | (.error (.downloadError m), st1) =>
    match st1.segments.get? st1.cursor with
    | none => .exit st1 (.raised (.pyError "list index out of range"))
    | some seg => segmentFailure o st1 seg m
  | (.error (.pyError m), st1) => .exit st1 (.raised (.pyError m))

/-- One full pass of the `while self._cursor < len(self._segments)`
loop (downloader.py lines 336-372): check the while condition, then the
stop event (`return`), the force event (`break`), the pause gate
(block, possibly `continue`), then process the segment at the
cursor. -/
def loopIter (net : Net) (aes : Aes) (o : DownloadTaskOptions) (sched : Sched)
    (st0 : DLState) : IterOut :=
  if st0.cursor < st0.segments.length then
    let f := sched st0.iter
    let st := {st0 with iter := st0.iter + 1}
    if f.stop then
      .exit {st with status := .stopped, message := some "Download cancelled"} .stopRet
    else if f.force then
      .exit {st with status := .forced, message := some "Partial download saved"} .fellThrough
    else
      let st1 :=
        if ¬f.pause ∧ st.status ≠ .paused then
          {st with status := .paused, message := some "Download paused"}
        else st
      if ¬f.pause ∧ ¬f.pauseAfterWait then .next st1
      else
        let st2 :=
          if ¬f.pause then
            {st1 with status := .downloading, message := some "Downloading segments"}
          else st1
        processSegment net aes o st2
  else .exit st0 .fellThrough

/-- Fuelled iteration of `loopIter`; `none` models a run that has not
yet finished within `fuel` checkpoints (e.g. a task left paused
forever). -/
def downloadLoop (net : Net) (aes : Aes) (o : DownloadTaskOptions) (sched : Sched) :
    Nat → DLState → Option (DLState × LoopExit)
  | 0, _ => none
  | fuel + 1, st =>
    match loopIter net aes o sched st with
    | .next st1 => downloadLoop net aes o sched fuel st1
    | .exit st1 e => some (st1, e)

/-- `DownloadTask._download_segments` (downloader.py lines 331-386):
unlink any stale temp file, run the loop; on the stop `return` nothing
else happens (the output files are untouched and the temp file is left
as the loop left it); on a raised error the exception propagates
likewise; otherwise write out any buffered payloads (memory mode,
unless forced), unlink the final path and move the temp file onto it —
`<title>.partial.ts` when forced, `<title>.ts` otherwise.  The result
pairs the final state and files with the propagated exception, if
any. -/
def download_segments (net : Net) (aes : Aes) (o : DownloadTaskOptions)
    (sched : Sched) (fuel : Nat) (st0 : DLState) (fs0 : TaskFiles) :
    Option ((DLState × TaskFiles) × Option DLErr) :=
  let stA := {st0 with tempFile := none}
  match downloadLoop net aes o sched fuel stA with
  | none => none
  | some (st, .stopRet) => some ((st, fs0), none)
  | some (st, .raised e) => some ((st, fs0), some e)
  | some (st, .fellThrough) =>
    let st :=
      if ¬o.stream_to_disk ∧ st.buffer ≠ [] ∧ st.status ≠ .forced then
        {st with tempFile := some (st.tempFile.getD [] ++ st.buffer.flatten)}
      else st
    if st.status = .forced then
      match st.tempFile with
      | some bs => some (({st with tempFile := none},
                          {fs0 with partFile := some bs}), none)
      | none => some ((st, {fs0 with partFile := none}), none)
    else
      match st.tempFile with
      | some bs => some (({st with tempFile := none},
                          {fs0 with tsFile := some bs}), none)
      | none => some ((st, {fs0 with tsFile := none}), none)

/-- `DownloadTask._convert_to_mp4` (downloader.py lines 426-454).
`ffmpegOnPath` models `shutil.which("ffmpeg")`; `remux` models the
subprocess (`none` = non-zero exit; on success the intermediate `.ts`
is removed). -/
def convert_to_mp4 (ffmpegOnPath : Bool) (remux : List Nat → Option (List Nat))
    (st : DLState) (fs : TaskFiles) : Except DLErr (DLState × TaskFiles) :=
  if st.status = .forced then .ok (st, fs)
  else
    match fs.tsFile with
    | none => .error (.downloadError "TS file missing for conversion")
    | some ts =>
      if ¬ffmpegOnPath then
        .ok ({st with ffmpegMissing := true, status := .completed,
                      message := some "ffmpeg not available; saved TS stream instead of MP4"},
             fs)
      else
        match remux ts with
        | none => .error (.downloadError "ffmpeg failed")
        | some mp4 => .ok (st, {fs with mp4File := some mp4, tsFile := none})

/-- `DownloadTask._run` (downloader.py lines 240-266) from the point
the segment list has been prepared: set the status to `downloading`,
drive the pipeline, return early on stop/force, convert when the target
format is mp4, and map raised exceptions to the `error` status. -/
def runWorker (net : Net) (aes : Aes) (o : DownloadTaskOptions) (sched : Sched)
    (ffmpegOnPath : Bool) (remux : List Nat → Option (List Nat)) (fuel : Nat)
    (st0 : DLState) (fs0 : TaskFiles) : Option (DLState × TaskFiles) :=
  let stA := {st0 with status := .downloading, message := some "Downloading segments"}
  match download_segments net aes o sched fuel stA fs0 with
  | none => none
  | some ((st, fs), some (.downloadError m)) =>
    some ({st with status := .error, message := some m}, fs)
  | some ((st, fs), some (.pyError m)) =>
    some ({st with status := .error, message := some ("Unexpected error: " ++ m)}, fs)
  | some ((st, fs), none) =>
    if st.status = .stopped ∨ st.status = .forced then some (st, fs)
    else
      match (if o.output_format = "mp4" then convert_to_mp4 ffmpegOnPath remux st fs
             else .ok (st, fs)) with
      | .error (.downloadError m) =>
        some ({st with status := .error, message := some m}, fs)
      | .error (.pyError m) =>
        some ({st with status := .error, message := some ("Unexpected error: " ++ m)}, fs)
      | .ok (st1, fs1) =>
        if st1.status ≠ .error then
          some ({st1 with status := .completed, message := some "Download finished"}, fs1)
        else some (st1, fs1)

/-- `DownloadTask.retry_segment` (downloader.py lines 199-208): bounds
check (`IndexError` as `.error`), reset the segment to pending with
zero retries, rewind the cursor when it is strictly past the index.
The temp file is not touched. -/
def retry_segment (st : DLState) (i : Int) : Except String DLState :=
  if i < 0 ∨ (st.segments.length : Int) ≤ i then .error "segment index out of range"
  else
    let n := i.toNat
    match st.segments.get? n with
    | none => .error "segment index out of range"
    | some seg =>
      let seg := {seg with status := .pending, error := none, retries := 0}
      let st1 := {st with segments := st.segments.set n seg}
      if st1.cursor > n then .ok {st1 with cursor := n} else .ok st1

/-! ## Task control (`DownloadTask.start`) and the manager -/

/-- Control-side task state: lifecycle status, whether a worker thread
is alive, and the three `threading.Event`s (`pauseSet` is
`_pause_event.is_set()`). -/
structure CtlState where
  status : TStatus
  message : Option String := none
  threadAlive : Bool := false
  pauseSet : Bool := true
  stopSet : Bool := false
  forceSet : Bool := false
  opts : DownloadTaskOptions
deriving DecidableEq, Repr

/-- `DownloadTask.start` (downloader.py lines 137-158): with a live
worker, a cleared pause event means resume; with no live worker, only
`completed` and `forced` return early — any other status revalidates
the options (`.error` models the `ValueError`), clears the stop/force
events and spawns a fresh worker.  The boolean reports whether a thread
was spawned. -/
def startTask (t : CtlState) : Except String (CtlState × Bool) :=
  if t.threadAlive then
    if ¬t.pauseSet then
      .ok ({t with pauseSet := true, status := .downloading,
                   message := some "Resuming download"}, false)
    else .ok (t, false)
  else if t.status = .completed ∨ t.status = .forced then .ok (t, false)
  else
    match t.opts.validate with
    | .error e => .error e
    | .ok _ =>
      .ok ({t with stopSet := false, forceSet := false, pauseSet := true,
                   threadAlive := true}, true)

/-- The first action of the spawned worker `_run` (downloader.py lines
240-243): the status leaves whatever it was and becomes `preparing`. -/
def workerBegin (t : CtlState) : CtlState :=
  {t with status := .preparing, message := some "Resolving playlist"}

/-- `DownloadManager.create_task` (downloader.py lines 482-486):
construct the task and insert it into the registry under its id.  No
validation is performed.  The registry is an association list keyed by
task id. -/
def create_task (reg : List (String × DownloadTaskOptions)) (tid : String)
    (o : DownloadTaskOptions) : List (String × DownloadTaskOptions) :=
  (tid, o) :: reg.filter (fun p => p.1 ≠ tid)

/-! ## app.py `download_m3u8` segment loop (lines 166-252)

The loop is modelled from the point the playlist has been parsed and
the temp file opened.  Error messages are short English stand-ins for
the Chinese user-facing texts; no claim depends on their exact
wording. -/

/-- External collaborators of the Flask worker. -/
structure AppCfg where
  r : Resolver
  net : Net
  urljoinF : String → String → String
  aes : Aes

/-- Python `str.replace("0x", "")`: remove every (non-overlapping)
occurrence. -/
def removeAll0x : List Char → List Char
  | [] => []
  | '0' :: 'x' :: rest => removeAll0x rest
  | c :: rest => c :: removeAll0x rest

/-- IV selection of app.py lines 204-215: a truthy IV string is
lower-cased, stripped of every `0x`, left-padded to 32 hex characters
and hex-decoded (`.error` models the caught `ValueError`); a missing or
empty IV yields the 16-byte big-endian encoding of
`media_sequence + i`, with `i` the 0-based enumerate index. -/
def appSelectIV (media_sequence i : Nat) (ivField : Option String) :
    Except String (List Nat) :=
  match ivField with
  | some s =>
    if s = "" then .ok (toBytesBE 16 (media_sequence + i))
    else
      match fromHexList (zfill 32 (removeAll0x (s.toList.map Char.toLower))) with
      | some bs => .ok bs
      | none => .error "iv parse failed"
  | none => .ok (toBytesBE 16 (media_sequence + i))

abbrev KeyCache := List (String × List Nat)

/-- Key-cache consultation of app.py lines 193-202: a hit fetches
nothing; a miss GETs the key URL and stores it. -/
def appFetchKey (cfg : AppCfg) (i : Nat) (key_url : String) (cache : KeyCache) :
    Except String (List Nat × KeyCache) × List String :=
  match List.lookup key_url cache with
  | some kb => (.ok (kb, cache), [])
  | none =>
    let (kcode, kbody) := cfg.net key_url
    if kcode ≥ 400 then
      (.error ("segment " ++ toString (i + 1) ++ " key download failed"), [key_url])
    else (.ok (kbody, (key_url, kbody) :: cache), [key_url])

/-- IV validation and decryption of app.py lines 204-226. -/
def appDecryptTail (cfg : AppCfg) (media_sequence i : Nat) (k : M3Key)
    (kb body : List Nat) : Except String (List Nat) :=
  match appSelectIV media_sequence i k.iv with
  | .error e => .error ("segment " ++ toString (i + 1) ++ " " ++ e)
  | .ok iv =>
    if iv.length ≠ 16 then
      .error ("segment " ++ toString (i + 1) ++ " iv length invalid")
    else
      match cfg.aes kb iv body with
      | none => .error ("segment " ++ toString (i + 1) ++ " decrypt failed")
      | some pt => .ok pt

/-- One iteration of the `for i, segment in enumerate(...)` loop
(app.py lines 166-252): safety-filter the segment URL before its GET;
on an encrypted segment check the method, safety-filter the key URL
before consulting the cache, fetch the key on a miss, select the IV and
decrypt.  `.error` is an `abort_download` (status `error`, temp file
removed); the second component is the URLs GETted by this step, in
order. -/
def appProcessSegment (cfg : AppCfg) (media_sequence i : Nat) (base : String)
    (cache : KeyCache) (seg : M3Segment) :
    Except String (List Nat × KeyCache) × List String :=
  let segment_url := cfg.urljoinF base seg.uri
  if ¬is_safe_url cfg.r segment_url then
    (.error ("segment " ++ toString (i + 1) ++ " url points at internal network"), [])
  else
    let (code, body) := cfg.net segment_url
    if code ≥ 400 then
      (.error ("segment " ++ toString (i + 1) ++ " download failed"), [segment_url])
    else
      match seg.key with
      | none => (.ok (body, cache), [segment_url])
      | some k =>
        match k.method with
        | none => (.ok (body, cache), [segment_url])
        | some mth =>
          if mth = "" then (.ok (body, cache), [segment_url])
          else if pyUpper mth = "NONE" then (.ok (body, cache), [segment_url])
          else if pyUpper mth ≠ "AES-128" then
            (.error ("segment " ++ toString (i + 1) ++ " unsupported method: " ++
              pyUpper mth), [segment_url])
          else
            match k.uri with
            | none =>
              (.error ("segment " ++ toString (i + 1) ++ " download failed"),
               [segment_url])
            | some ku =>
              let key_url := cfg.urljoinF base ku
              if ¬is_safe_url cfg.r key_url then
                (.error ("segment " ++ toString (i + 1) ++
                  " key url points at internal network"), [segment_url])
              else
                match appFetchKey cfg i key_url cache with
                | (.error m, t) => (.error m, [segment_url] ++ t)
                | (.ok (kb, cache1), t) =>
                  match appDecryptTail cfg media_sequence i k kb body with
                  | .error m => (.error m, [segment_url] ++ t)
                  | .ok pt => (.ok (pt, cache1), [segment_url] ++ t)

/-- Outcome of the loop: the final file contents on completion, or the
abort message (the temp file having been deleted). -/
inductive AppOut where
  | completedRun (fileBytes : List Nat)
  | errorRun (msg : String)
deriving DecidableEq, Repr

structure AppRun where
  out : AppOut
  trace : List String
deriving DecidableEq, Repr

def appLoopGo (cfg : AppCfg) (media_sequence : Nat) (base : String) :
    List M3Segment → Nat → KeyCache → List Nat → List String → AppRun
  | [], _, _, outBytes, tr => ⟨.completedRun outBytes, tr⟩
  | seg :: rest, i, cache, outBytes, tr =>
    match appProcessSegment cfg media_sequence i base cache seg with
    | (.error m, t) => ⟨.errorRun m, tr ++ t⟩
    | (.ok (payload, cache1), t) =>
      appLoopGo cfg media_sequence base rest (i + 1) cache1 (outBytes ++ payload)
        (tr ++ t)

/-- The whole segment loop of `download_m3u8` (app.py lines 166-252):
payloads are appended to the temp file in order; completion renames the
temp file onto the final path, an abort deletes it. -/
def download_m3u8_loop (cfg : AppCfg) (media_sequence : Nat) (base : String)
    (segs : List M3Segment) : AppRun :=
  appLoopGo cfg media_sequence base segs 0 [] [] []

/-! ## Concrete fixtures for closed statements -/

/-- A schedule on which no external command ever arrives. -/
def schedClear : Sched := fun _ => {}

/-- A cipher stand-in that returns the ciphertext unchanged. -/
def aesId : Aes := fun _ _ d => some d

/-- A cipher stand-in that maps everything to `[]`; if a pipeline ever
invokes it, the payload visibly changes. -/
def aesZap : Aes := fun _ _ _ => some []

def noRemux : List Nat → Option (List Nat) := fun b => some b

def optsTS : DownloadTaskOptions := {url := "http://e/p.m3u8", title := "t"}

/-- Resolver for the public host `example.com`. -/
def egResolver : Resolver := fun h =>
  if h = "example.com" then some [some "93.184.216.34"] else none

def egCfg : AppCfg :=
  { r := egResolver
    net := fun _ => (200, [0xaa])
    urljoinF := fun _ u => u
    aes := aesId }

def egSeg : M3Segment := {uri := "http://example.com/a.ts"}

/-- Fixture C1: one segment pointing at the loopback address. -/
def c1seg : SegmentStatus :=
  {index := 0, url := "http://127.0.0.1/a.ts", duration := none,
   key_uri := none, iv := none, method := none}

def c1net : Net := fun _ => (200, [0xaa])

/-- Fixture C3: keyed segment without an IV, media sequence 42. -/
def c3key : M3Key := {method := some "AES-128", uri := some "key.bin", iv := none}

def c3pl : M3Playlist :=
  {segments := [{uri := "s0.ts", key := some c3key}], media_sequence := 42}

/-- Fixture C4: a task that was cancelled (terminal status `stopped`,
stop event still set, worker gone). -/
def c4state : CtlState :=
  {status := .stopped, message := some "Download cancelled", threadAlive := false,
   pauseSet := true, stopSet := true, forceSet := false, opts := optsTS}

/-- Fixture C5: two segments; the stop command arrives at the second
checkpoint. -/
def c5segA : SegmentStatus :=
  {index := 0, url := "http://e/s0.ts", duration := none, key_uri := none,
   iv := none, method := none}

def c5segB : SegmentStatus :=
  {index := 1, url := "http://e/s1.ts", duration := none, key_uri := none,
   iv := none, method := none}

def c5sched : Sched := fun k => if k = 0 then {} else {stop := true}

def c5st : DLState := {segments := [c5segA, c5segB]}

/-- Fixture for the C5 witness: a one-segment run that completes. -/
def c5wSt : DLState := {segments := [c5segA]}

def c5wOut : DLState × TaskFiles :=
  (runWorker c1net aesId optsTS schedClear true noRemux 10 c5wSt {}).getD
    ({segments := []}, {})

/-- Fixture for the C5 witness error case: mp4 output with a failing
remuxer, so the conversion step raises after the normal finalisation
has already moved the temp file onto the `.ts` output. -/
def optsMp4 : DownloadTaskOptions :=
  {url := "http://e/p.m3u8", title := "t", output_format := "mp4"}

def remuxFail : List Nat → Option (List Nat) := fun _ => none

def c5wErr : DLState × TaskFiles :=
  (runWorker c1net aesId optsMp4 schedClear true remuxFail 10 c5wSt {}).getD
    ({segments := []}, {})

/-- Fixture C6: three completed one-byte segments, cursor past them,
temp file holding their bytes. -/
def c6seg (i : Nat) (u : String) : SegmentStatus :=
  {index := i, url := u, duration := none, key_uri := none, iv := none,
   method := none, status := .completed, size := 1}

def c6st : DLState :=
  {segments := [c6seg 0 "u0", c6seg 1 "u1", c6seg 2 "u2"], cursor := 3,
   tempFile := some [170, 187, 204]}

/-- Fixture C7: a segment whose GET always answers 404. -/
def c7net : Net := fun _ => (404, [])

def c7seg : SegmentStatus :=
  {index := 0, url := "http://e/s0.ts", duration := none, key_uri := none,
   iv := none, method := none}

def c7st : DLState := {segments := [c7seg]}

/-- Fixture C8: a segment protected by an unsupported method. -/
def c8seg : SegmentStatus :=
  {index := 0, url := "http://e/s.ts", duration := none,
   key_uri := some "http://e/k.bin", iv := some (toBytesBE 16 1),
   method := some "SAMPLE-AES"}

def c8net : Net := fun u =>
  if u = "http://e/k.bin" then (200, List.replicate 16 7) else (200, [1, 2, 3])

def c8appSeg : M3Segment :=
  {uri := "http://example.com/a.ts",
   key := some {method := some "SAMPLE-AES", uri := some "http://example.com/k.bin",
                iv := none}}

/-- Fixture C9: options invalid per `validate` (empty URL). -/
def c9bad : DownloadTaskOptions := {url := "", title := "demo"}

def c9ctl : CtlState := {status := .ready, opts := c9bad}

/-- The segment reset performed by `retry_segment` (downloader.py
lines 204-206). -/
def resetSeg (seg : SegmentStatus) : SegmentStatus :=
  {seg with status := .pending, error := none, retries := 0}

/-! ## Supporting lemmas -/

/- Sanity checks mirroring the repository's own `is_safe_url` unit
tests: a public IPv6-only host is allowed, a ULA IPv6 host is
rejected. -/
example : is_safe_url noResolver "http://127.0.0.1/a.ts" = false := by decide
example : is_safe_url noResolver "http://224.0.0.1/x" = true := by decide
example : is_safe_url (fun h => if h = "ipv6-only.example" then some [some "2001:4860::1"] else none)
    "http://ipv6-only.example/path" = true := by decide
example : is_safe_url (fun h => if h = "private-v6.example" then some [some "fd00::1"] else none)
    "http://private-v6.example/path" = false := by decide


theorem downloadSingleSegment_status (net : Net) (aes : Aes)
    (o : DownloadTaskOptions) (st : DLState) :
    (downloadSingleSegment net aes o st).2.status = st.status := by
  simp only [downloadSingleSegment]
  repeat' split
  all_goals rfl

theorem downloadSingleSegment_cursor (net : Net) (aes : Aes)
    (o : DownloadTaskOptions) (st : DLState) :
    (downloadSingleSegment net aes o st).2.cursor = st.cursor := by
  simp only [downloadSingleSegment]
  repeat' split
  all_goals rfl

theorem segmentFailure_spec (o : DownloadTaskOptions) (st1 : DLState)
    (seg : SegmentStatus) (m : String) :
    (∀ st2, segmentFailure o st1 seg m = .next st2 → st2.status = st1.status) ∧
    (∀ st2 e, segmentFailure o st1 seg m = .exit st2 e →
      st2.status = st1.status ∧ ∃ er, e = .raised er) := by
  constructor
  · intro st2 h
    simp only [segmentFailure] at h
    split at h
    · cases h
    · cases h; rfl
  · intro st2 e h
    simp only [segmentFailure] at h
    split at h
    · cases h; exact ⟨rfl, _, rfl⟩
    · cases h

/-- `processSegment` never changes the task status, and its only exits
are raised exceptions. -/
theorem processSegment_spec (net : Net) (aes : Aes) (o : DownloadTaskOptions)
    (st : DLState) :
    (∀ st1, processSegment net aes o st = .next st1 → st1.status = st.status) ∧
    (∀ st1 e, processSegment net aes o st = .exit st1 e →
      st1.status = st.status ∧ ∃ er, e = .raised er) := by
  have hdss := downloadSingleSegment_status net aes o st
  constructor
  · intro st1 h
    unfold processSegment at h
    split at h
    · split at h
      · cases h
      · cases h
        split <;> simp_all
    · split at h
      · cases h
      · rename_i hgot
        have := (segmentFailure_spec o _ _ _).1 st1 h
        simp_all
    · cases h
  · intro st1 e h
    unfold processSegment at h
    split at h
    · split at h
      · cases h; simp_all
      · cases h
    · split at h
      · cases h; simp_all
      · have := (segmentFailure_spec o _ _ _).2 st1 e h
        simp_all
    · cases h; simp_all

/-- Status bookkeeping of one loop pass, starting from a live
status. -/
theorem loopIter_status (net : Net) (aes : Aes) (o : DownloadTaskOptions)
    (sched : Sched) (st : DLState) (h : liveStatus st) :
    (∀ st1, loopIter net aes o sched st = .next st1 → liveStatus st1) ∧
    (∀ st1, loopIter net aes o sched st = .exit st1 .stopRet →
      st1.status = .stopped) ∧
    (∀ st1, loopIter net aes o sched st = .exit st1 .fellThrough →
      st1.status = .forced ∨ liveStatus st1) ∧
    (∀ st1 er, loopIter net aes o sched st = .exit st1 (.raised er) →
      liveStatus st1) := by
  refine ⟨?_, ?_, ?_, ?_⟩ <;> intro st1
  case _ => -- .next
    intro hit
    simp only [loopIter] at hit
    split at hit
    · split at hit
      · cases hit
      · split at hit
        · cases hit
        · split at hit
          · cases hit
            split
            · exact Or.inr rfl
            · exact h
          · have hps := (processSegment_spec net aes o _).1 _ hit
            simp only [liveStatus, hps]
            split
            · exact Or.inl rfl
            · split
              · exact Or.inr rfl
              · exact h
    · cases hit
  case _ => -- .stopRet
    intro hit
    simp only [loopIter] at hit
    split at hit
    · split at hit
      · cases hit; rfl
      · split at hit
        · cases hit
        · split at hit
          · cases hit
          · rcases (processSegment_spec net aes o _).2 _ _ hit with ⟨_, er, her⟩
            cases her
    · cases hit
  case _ => -- .fellThrough
    intro hit
    simp only [loopIter] at hit
    split at hit
    · split at hit
      · cases hit
      · split at hit
        · cases hit; exact Or.inl rfl
        · split at hit
          · cases hit
          · rcases (processSegment_spec net aes o _).2 _ _ hit with ⟨_, er, her⟩
            cases her
    · cases hit; exact Or.inr h
  case _ => -- .raised
    intro er hit
    simp only [loopIter] at hit
    split at hit
    · split at hit
      · cases hit
      · split at hit
        · cases hit
        · split at hit
          · cases hit
          · have hps := ((processSegment_spec net aes o _).2 _ _ hit).1
            simp only [liveStatus, hps]
            split
            · exact Or.inl rfl
            · split
              · exact Or.inr rfl
              · exact h
    · cases hit

/-- Status bookkeeping across the whole fuelled loop. -/
theorem downloadLoop_status (net : Net) (aes : Aes) (o : DownloadTaskOptions)
    (sched : Sched) :
    ∀ (fuel : Nat) (st st1 : DLState) (e : LoopExit), liveStatus st →
      downloadLoop net aes o sched fuel st = some (st1, e) →
      (e = .stopRet → st1.status = .stopped) ∧
      (e = .fellThrough → st1.status = .forced ∨ liveStatus st1) ∧
      (∀ er, e = .raised er → liveStatus st1) := by
  intro fuel
  induction fuel with
  | zero => intro st st1 e h hl; simp [downloadLoop] at hl
  | succ n ih =>
    intro st st1 e h hl
    unfold downloadLoop at hl
    cases hit : loopIter net aes o sched st with
    | next st2 =>
      rw [hit] at hl
      exact ih st2 st1 e ((loopIter_status net aes o sched st h).1 st2 hit) hl
    | exit st2 e2 =>
      rw [hit] at hl
      simp only [Option.some.injEq, Prod.mk.injEq] at hl
      obtain ⟨h1, h2⟩ := hl
      subst h1; subst h2
      refine ⟨?_, ?_, ?_⟩
      · intro he; subst he
        exact (loopIter_status net aes o sched st h).2.1 _ hit
      · intro he; subst he
        exact (loopIter_status net aes o sched st h).2.2.1 _ hit
      · intro er he; subst he
        exact (loopIter_status net aes o sched st h).2.2.2 _ er hit

/-- What `_convert_to_mp4` can do to a non-forced task that returns
without raising: the temp file and the partial output are untouched,
and the status is unchanged or set to `completed` (ffmpeg missing). -/
theorem convert_to_mp4_spec (ffm : Bool) (remux : List Nat → Option (List Nat))
    (st : DLState) (fs : TaskFiles) (st2 : DLState) (fs2 : TaskFiles)
    (h : convert_to_mp4 ffm remux st fs = .ok (st2, fs2)) :
    st2.tempFile = st.tempFile ∧ fs2.partFile = fs.partFile ∧
    (st2.status = st.status ∨ st2.status = .completed) := by
  unfold convert_to_mp4 at h
  split at h
  · cases h; exact ⟨rfl, rfl, Or.inl rfl⟩
  · split at h
    · cases h
    · split at h
      · cases h; exact ⟨rfl, rfl, Or.inr rfl⟩
      · split at h
        · cases h
        · cases h; exact ⟨rfl, rfl, Or.inl rfl⟩

/-- Outcome taxonomy of `_download_segments`, started on a live task:
the stop `return` (status `stopped`, files untouched), a propagated
exception (status still live, files untouched), the forced
finalisation (temp moved onto the partial output), or the normal
finalisation (temp moved onto the `.ts` output). -/
theorem download_segments_spec (net : Net) (aes : Aes) (o : DownloadTaskOptions)
    (sched : Sched) (fuel : Nat) (st0 : DLState) (fs0 : TaskFiles)
    (stR : DLState) (fsR : TaskFiles) (err : Option DLErr)
    (hl0 : liveStatus st0)
    (h : download_segments net aes o sched fuel st0 fs0 = some ((stR, fsR), err)) :
    (err = none ∧ stR.status = .stopped ∧ fsR = fs0) ∨
    (∃ e, err = some e ∧ liveStatus stR ∧ fsR = fs0) ∨
    (err = none ∧ stR.status = .forced ∧ stR.tempFile = none ∧
      fsR.tsFile = fs0.tsFile ∧ fsR.mp4File = fs0.mp4File) ∨
    (err = none ∧ liveStatus stR ∧ stR.tempFile = none ∧
      fsR.partFile = fs0.partFile ∧ fsR.mp4File = fs0.mp4File) := by
  simp only [download_segments] at h
  rcases hloop : downloadLoop net aes o sched fuel {st0 with tempFile := none} with _ | ⟨st, e⟩
  · rw [hloop] at h; simp at h
  · rw [hloop] at h
    have hstat := downloadLoop_status net aes o sched fuel
      {st0 with tempFile := none} st e hl0 hloop
    cases e with
    | stopRet =>
      dsimp only at h
      simp only [Option.some.injEq, Prod.mk.injEq] at h
      obtain ⟨⟨h1, h2⟩, h3⟩ := h
      subst h1; subst h2; subst h3
      exact Or.inl ⟨rfl, hstat.1 rfl, rfl⟩
    | raised er =>
      dsimp only at h
      simp only [Option.some.injEq, Prod.mk.injEq] at h
      obtain ⟨⟨h1, h2⟩, h3⟩ := h
      subst h1; subst h2; subst h3
      exact Or.inr (Or.inl ⟨er, rfl, hstat.2.2 er rfl, rfl⟩)
    | fellThrough =>
      have hlf := hstat.2.1 rfl
      dsimp only at h
      split at h
      all_goals (
        split at h
        · rename_i hforce
          split at h
          · rename_i bs heqT
            simp only [Option.some.injEq, Prod.mk.injEq] at h
            obtain ⟨⟨h1, h2⟩, h3⟩ := h
            subst h1; subst h2; subst h3
            exact Or.inr (Or.inr (Or.inl ⟨rfl, hforce, rfl, rfl, rfl⟩))
          · rename_i heqT
            simp only [Option.some.injEq, Prod.mk.injEq] at h
            obtain ⟨⟨h1, h2⟩, h3⟩ := h
            subst h1; subst h2; subst h3
            exact Or.inr (Or.inr (Or.inl ⟨rfl, hforce, heqT, rfl, rfl⟩))
        · rename_i hnf
          have hlive : st.status = TStatus.downloading ∨ st.status = TStatus.paused := by
            rcases hlf with hf | hl
            · exact absurd hf (by simpa using hnf)
            · exact hl
          split at h
          · rename_i bs heqT
            simp only [Option.some.injEq, Prod.mk.injEq] at h
            obtain ⟨⟨h1, h2⟩, h3⟩ := h
            subst h1; subst h2; subst h3
            exact Or.inr (Or.inr (Or.inr ⟨rfl, hlive, rfl, rfl, rfl⟩))
          · rename_i heqT
            simp only [Option.some.injEq, Prod.mk.injEq] at h
            obtain ⟨⟨h1, h2⟩, h3⟩ := h
            subst h1; subst h2; subst h3
            exact Or.inr (Or.inr (Or.inr ⟨rfl, hlive, heqT, rfl, rfl⟩)))

/-! ## Claims -/

/-- **C2** (counterexample): the claim says `is_safe_url` rejects
multicast addresses.  It does not: app.py lines 70-77 test only
`is_private`, `is_loopback`, `is_link_local` and `is_reserved`, and the
IPv4 multicast block 224.0.0.0/4 belongs to none of those classes, so
the multicast literal host `224.0.0.1` is accepted. -/
theorem C2_counterexample :
    ip_address "224.0.0.1" = some (.v4 0xE0000001) ∧
    IPAddr.isMulticast (.v4 0xE0000001) = true ∧
    is_safe_url noResolver "http://224.0.0.1/x" = true :=
  ⟨rfl, by decide, by decide⟩

/-- **C2** (amended): `is_safe_url` returns false when the URL has no
parsable host, when the resolver fails, when any resolved address is
unparsable or the resolution set is empty, and when any resolved
address is private, loopback, link-local or reserved; it returns true
exactly when every resolved address passes those four checks.
Multicast addresses are not rejected. -/
theorem C2_amended (r : Resolver) (u : String) :
    (∀ e, hostnameOf u = .error e → is_safe_url r u = false) ∧
    (hostnameOf u = .ok none → is_safe_url r u = false) ∧
    (∀ h, hostnameOf u = .ok (some h) → gatherAddresses r h = none →
      is_safe_url r u = false) ∧
    (∀ h addrs a, hostnameOf u = .ok (some h) →
      gatherAddresses r h = some addrs → a ∈ addrs →
      (a.isPrivate || a.isLoopback || a.isLinkLocal || a.isReserved) = true →
      is_safe_url r u = false) ∧
    (∀ h addrs, hostnameOf u = .ok (some h) →
      gatherAddresses r h = some addrs → (∀ a ∈ addrs, ipPasses a = true) →
      is_safe_url r u = true) := by
  refine ⟨?_, ?_, ?_, ?_, ?_⟩
  · intro e he; simp [is_safe_url, he]
  · intro he; simp [is_safe_url, he]
  · intro h hh hg; simp [is_safe_url, hh, hg]
  · intro h addrs a hh hg hmem hbad
    simp only [is_safe_url, hh, hg]
    simp only [← Bool.not_eq_true, List.all_eq_true]
    intro hall
    have := hall a hmem
    simp [ipPasses, hbad] at this
  · intro h addrs hh hg hall
    simp only [is_safe_url, hh, hg, List.all_eq_true]
    exact hall

theorem C2_amended_witness :
    is_safe_url noResolver "http://10.0.0.1/x" = false :=
  (C2_amended noResolver "http://10.0.0.1/x").2.2.2.1 "10.0.0.1"
    [IPAddr.v4 0x0A000001] (IPAddr.v4 0x0A000001) rfl rfl
    (by decide) (by decide)

/-- **C10** (confirmed): `is_safe_url` is a total Boolean function; the
outer `try/except Exception` maps every internal failure (the
`ValueError` that `urlparse` can raise, a missing host, a resolver
failure, an unparsable address, an empty resolution set) to `false`,
and it returns `true` only on the fully successful path where every
resolved address passes the classification. -/
theorem C10_is_safe_url_total (r : Resolver) (u : String) :
    is_safe_url r u = false ∨
    (∃ h addrs, hostnameOf u = .ok (some h) ∧ gatherAddresses r h = some addrs ∧
      addrs.all ipPasses = true ∧ is_safe_url r u = true) := by
  cases hh : hostnameOf u with
  | error e => exact Or.inl (by simp [is_safe_url, hh])
  | ok ho =>
    cases ho with
    | none => exact Or.inl (by simp [is_safe_url, hh])
    | some h =>
      cases hg : gatherAddresses r h with
      | none => exact Or.inl (by simp [is_safe_url, hh, hg])
      | some addrs =>
        cases hb : addrs.all ipPasses with
        | false => exact Or.inl (by simp [is_safe_url, hh, hg, hb])
        | true =>
          exact Or.inr ⟨h, addrs, rfl, hg, hb, by simp [is_safe_url, hh, hg, hb]⟩

/-- **C9** (counterexample): `create_task` performs no validation.
With an empty URL — invalid per `DownloadTaskOptions.validate` — the
task is still constructed and inserted into the registry. -/
theorem C9_counterexample :
    DownloadTaskOptions.validate c9bad = .error "url is required" ∧
    List.lookup "t1" (create_task [] "t1" c9bad) = some c9bad :=
  ⟨rfl, rfl⟩

/-- **C9** (amended): `create_task` unconditionally constructs and
inserts the task, whatever the options; option validation happens only
when `start` is invoked on the task, where invalid options surface as
the `ValueError` of `validate`. -/
theorem C9_amended (reg : List (String × DownloadTaskOptions)) (tid : String)
    (o : DownloadTaskOptions) :
    List.lookup tid (create_task reg tid o) = some o ∧
    (∀ (t : CtlState) (e : String), t.opts = o → t.threadAlive = false →
      t.status ≠ .completed → t.status ≠ .forced → o.validate = .error e →
      startTask t = .error e) := by
  constructor
  · simp [create_task, List.lookup]
  · intro t e hopts hth hc hf hv
    simp [startTask, hth, hc, hf, hopts, hv]

theorem C9_amended_witness :
    List.lookup "t1" (create_task [] "t1" c9bad) = some c9bad ∧
    startTask c9ctl = .error "url is required" :=
  ⟨(C9_amended [] "t1" c9bad).1,
   (C9_amended [] "t1" c9bad).2 c9ctl "url is required" rfl rfl
     (by decide) (by decide) rfl⟩

/-- **C4** (counterexample): the claim says every terminal status is
sticky and `start` is a no-op on any terminal state with no live
worker.  On a task whose status is `stopped` (terminal) with no live
worker, `start` clears the stop event, spawns a fresh worker, and that
worker's first action moves the status to `preparing` — the snapshot is
not identical and the status leaves the terminal state. -/
theorem C4_counterexample :
    startTask c4state =
      .ok ({c4state with stopSet := false, forceSet := false, pauseSet := true,
                         threadAlive := true}, true) ∧
    (workerBegin {c4state with stopSet := false, forceSet := false,
                               pauseSet := true, threadAlive := true}).status =
      .preparing ∧
    c4state.status = .stopped ∧ c4state.threadAlive = false :=
  ⟨rfl, rfl, rfl, rfl⟩

/-- **C4** (amended): only `completed` and `forced` are sticky under
`start`: with no live worker, `start` on a task in either of those
states returns with the task completely unchanged and spawns no worker.
A task in the terminal states `error` or `stopped` is restarted by
`start` (a new worker is spawned and re-enters `preparing`). -/
theorem C4_amended (t : CtlState) (h1 : t.threadAlive = false)
    (h2 : t.status = .completed ∨ t.status = .forced) :
    startTask t = .ok (t, false) := by
  rcases h2 with h2 | h2 <;> simp [startTask, h1, h2]

def c4done : CtlState := {status := .completed, opts := optsTS}

theorem C4_amended_witness : startTask c4done = .ok (c4done, false) :=
  C4_amended c4done rfl (Or.inl rfl)

/-- **C6** (counterexample): the claim says `retry_segment` on an index
behind the cursor truncates the temp file so bytes of segments at or
past that index are discarded.  With three completed one-byte segments
(temp contents `[170, 187, 204]`), `retry_segment 1` rewinds the cursor
to 1 but leaves the temp file bit-identical — the bytes of segments 1
and 2 are still there (truncation would have left `[170]`). -/
theorem C6_counterexample :
    (retry_segment c6st 1).toOption.map (fun st => (st.cursor, st.tempFile)) =
      some (1, some [170, 187, 204]) ∧
    ([170, 187, 204] : List Nat) ≠ [170] :=
  ⟨rfl, by decide⟩

/-- **C6** (amended): for an in-range index, `retry_segment` resets the
segment to `pending` with `retries = 0` and no error, rewinds the
cursor when it is strictly past the index, and leaves the temp file
untouched (no truncation is performed); an out-of-range index yields
the index error with no state change. -/
theorem C6_amended (st : DLState) (i : Int) :
    (∀ seg, 0 ≤ i → i < (st.segments.length : Int) →
      st.segments.get? i.toNat = some seg →
      retry_segment st i =
        .ok (if st.cursor > i.toNat then
              {st with segments := st.segments.set i.toNat (resetSeg seg),
                       cursor := i.toNat}
            else
              {st with segments := st.segments.set i.toNat (resetSeg seg)})) ∧
    ((i < 0 ∨ (st.segments.length : Int) ≤ i) →
      retry_segment st i = .error "segment index out of range") ∧
    (∀ st1, retry_segment st i = .ok st1 → st1.tempFile = st.tempFile) := by
  refine ⟨?_, ?_, ?_⟩
  · intro seg h0 hlen hget
    unfold retry_segment
    rw [if_neg (not_or.mpr ⟨not_lt.mpr h0, not_le.mpr hlen⟩)]
    simp only [hget]
    by_cases hc : st.cursor > i.toNat <;> simp [hc, resetSeg]
  · intro h
    unfold retry_segment
    rw [if_pos h]
  · intro st1 h
    simp only [retry_segment] at h
    split at h
    · simp at h
    · split at h
      · simp at h
      · split at h <;> (cases h; rfl)

theorem C6_amended_witness :
    retry_segment c6st 1 =
      .ok {c6st with
            segments := [c6seg 0 "u0", resetSeg (c6seg 1 "u1"), c6seg 2 "u2"],
            cursor := 1} ∧
    retry_segment c6st 5 = .error "segment index out of range" := by
  constructor
  · have h := (C6_amended c6st 1).1 (c6seg 1 "u1") (by decide) (by decide) rfl
    rw [h]; rfl
  · exact (C6_amended c6st 5).2.1 (by decide)

/-- **C3** (counterexample): in `DownloadTask._prepare_segments` the
implicit IV of a keyed segment with no IV attribute is
`position.to_bytes(16, "big")` with `position` the 1-based playlist
index; the playlist's media sequence is never consulted.  On a playlist
with media sequence 42, the first segment's IV ends in 0x01, not 0x2a
as the claim requires. -/
theorem C3_counterexample :
    c3pl.media_sequence = 42 ∧
    (prepare_segments (fun _ u => u) "base" optsTS c3pl).toOption =
      some [{index := 0, url := "s0.ts", duration := none,
             key_uri := some "key.bin", iv := some (toBytesBE 16 1),
             method := some "AES-128"}] ∧
    (toBytesBE 16 1).getLast? = some 1 ∧
    (toBytesBE 16 (42 + 0)).getLast? = some 0x2a ∧
    (1 : Nat) ≠ 0x2a :=
  ⟨rfl, by decide, by decide, by decide, by decide⟩

/-- **C3** (amended): the two pipelines disagree on the implicit IV.
In app.py `download_m3u8`, a segment whose key carries no IV uses the
16-byte big-endian encoding of `media_sequence + i` with `i` the
0-based enumerate index (so with media sequence 42 the first two IVs
end in 0x2a and 0x2b).  In `DownloadTask._prepare_segments`, the
implicit IV is the 16-byte big-endian encoding of the 1-based playlist
position, and the media sequence is ignored. -/
theorem C3_amended :
    (∀ media_sequence i, appSelectIV media_sequence i none =
      .ok (toBytesBE 16 (media_sequence + i))) ∧
    (∀ (f : String → String → String) (base : String) (position idx : Nat)
      (seg : M3Segment) (m : Option String) (u : String) (a : Option String),
      mkPrepared f base position idx seg
          (some {method := m, uri := some u, iv := none, absolute_uri := a}) =
        .ok {index := idx, url := seg.absolute_uri.getD (f base seg.uri),
             duration := seg.duration, key_uri := some (a.getD (f base u)),
             iv := some (toBytesBE 16 position),
             method := some (pyUpper (m.getD ""))}) ∧
    (toBytesBE 16 (42 + 0)).getLast? = some 0x2a ∧
    (toBytesBE 16 (42 + 1)).getLast? = some 0x2b :=
  ⟨fun _ _ => rfl, fun _ _ _ _ _ _ _ _ => rfl, by decide, by decide⟩

/-- **C7** (confirmed): when the segment download raises a
`DownloadError` at an uninterrupted checkpoint, the loop body runs
`segmentFailure`: the segment's retry count is incremented, it is
marked `failed` with the error text recorded, the cursor does not
advance, and a task-level error is raised exactly when the incremented
retry count exceeds `max_retries` — otherwise a 1-second sleep is taken
and the same segment is retried. -/
theorem C7_retry_policy (net : Net) (aes : Aes) (o : DownloadTaskOptions)
    (sched : Sched) (st st1 : DLState) (m : String) (seg : SegmentStatus)
    (hc : st.cursor < st.segments.length)
    (hf : sched st.iter = {stop := false, force := false, pause := true,
                           pauseAfterWait := true})
    (hd : downloadSingleSegment net aes o {st with iter := st.iter + 1} =
      (.error (.downloadError m), st1))
    (hs : st1.segments[st1.cursor]? = some seg) :
    st1.cursor = st.cursor ∧
    loopIter net aes o sched st = segmentFailure o st1 seg m ∧
    (∀ st2, segmentFailure o st1 seg m = .next st2 →
      st2.cursor = st1.cursor ∧
      st2.segments = st1.segments.set st1.cursor
        {seg with retries := seg.retries + 1, status := .failed, error := some m} ∧
      st2.sleeps = st1.sleeps + 1 ∧
      ¬(((seg.retries + 1 : Nat) : Int) > o.max_retries)) ∧
    (∀ st2 e, segmentFailure o st1 seg m = .exit st2 e →
      st2.cursor = st1.cursor ∧
      st2.segments = st1.segments.set st1.cursor
        {seg with retries := seg.retries + 1, status := .failed, error := some m} ∧
      st2.sleeps = st1.sleeps ∧
      e = .raised (.downloadError
        ("Segment " ++ toString seg.index ++ " failed after " ++
         toString (seg.retries + 1) ++ " retries: " ++ m)) ∧
      ((seg.retries + 1 : Nat) : Int) > o.max_retries) := by
  refine ⟨?_, ?_, ?_, ?_⟩
  · have hcur := downloadSingleSegment_cursor net aes o {st with iter := st.iter + 1}
    rw [hd] at hcur
    exact hcur
  · simp only [loopIter]
    rw [if_pos hc]
    simp [hf, processSegment, hd, hs]
  · intro st2 h
    simp only [segmentFailure] at h
    split at h
    · cases h
    · cases h
      rename_i hle
      exact ⟨rfl, rfl, rfl, hle⟩
  · intro st2 e h
    simp only [segmentFailure] at h
    split at h
    · cases h
      rename_i hgt
      exact ⟨rfl, rfl, rfl, rfl, hgt⟩
    · cases h

def c7segDl : SegmentStatus := {c7seg with status := .downloading}

def c7st1 : DLState :=
  {c7st with iter := 1, segments := [c7segDl], trace := ["http://e/s0.ts"]}

def c7segFailed : SegmentStatus :=
  {c7segDl with retries := 1, status := .failed, error := some "HTTP 404"}

theorem C7_retry_policy_witness :
    loopIter c7net aesId optsTS schedClear c7st =
      segmentFailure optsTS c7st1 c7segDl "HTTP 404" ∧
    segmentFailure optsTS c7st1 c7segDl "HTTP 404" =
      .next {c7st1 with segments := [c7segFailed], sleeps := 1} := by
  have h := C7_retry_policy c7net aesId optsTS schedClear c7st c7st1 "HTTP 404"
    c7segDl (by decide) rfl rfl rfl
  exact ⟨h.2.1, rfl⟩

/-- **C8** (counterexample): the claim says a segment carrying a key
with a METHOD other than NONE / AES-128 errors at download time.  In
`DownloadTask._download_single_segment` there is no method check at
all: with decryption enabled, a segment whose method is `SAMPLE-AES`
(neither NONE nor AES-128) is fetched, its key is fetched, and the raw
payload is returned undecrypted with no error (the cipher stand-in here
maps everything to `[]`, so an attempted decryption would be
visible). -/
theorem C8_counterexample :
    (downloadSingleSegment c8net aesZap optsTS {segments := [c8seg]}).1.toOption =
      some [1, 2, 3] ∧
    c8seg.method = some "SAMPLE-AES" ∧
    optsTS.decrypt = true ∧
    ("SAMPLE-AES" ≠ "NONE" ∧ "SAMPLE-AES" ≠ "AES-128") :=
  ⟨rfl, rfl, rfl, by decide⟩

/-- **C8** (amended): only the app.py pipeline enforces the method
check: a segment whose key has a truthy METHOD whose upper-casing is
neither `NONE` nor `AES-128` always makes `download_m3u8` abort with an
error, whatever the network returns; the `DownloadTask` pipeline
performs no such check and writes the payload through undecrypted. -/
theorem C8_amended (cfg : AppCfg) (ms i : Nat) (base : String) (cache : KeyCache)
    (seg : M3Segment) (k : M3Key) (mth : String)
    (hk : seg.key = some k) (hm : k.method = some mth) (hne : mth ≠ "")
    (h1 : pyUpper mth ≠ "NONE") (h2 : pyUpper mth ≠ "AES-128") :
    ∃ msg t, appProcessSegment cfg ms i base cache seg = (.error msg, t) := by
  simp only [appProcessSegment]
  split
  · exact ⟨_, _, rfl⟩
  · split
    · exact ⟨_, _, rfl⟩
    · simp only [hk, hm]
      rw [if_neg hne, if_neg h1, if_pos h2]
      exact ⟨_, _, rfl⟩

def c8cfg : AppCfg :=
  {r := egResolver, net := fun _ => (200, [1, 2, 3]),
   urljoinF := fun _ u => u, aes := aesZap}

theorem C8_amended_witness :
    ∃ msg t, appProcessSegment c8cfg 0 0 "" [] c8appSeg = (.error msg, t) :=
  C8_amended c8cfg 0 0 "" [] c8appSeg
    {method := some "SAMPLE-AES", uri := some "http://example.com/k.bin", iv := none}
    "SAMPLE-AES" rfl rfl (by decide) (by decide) (by decide)

theorem appFetchKey_trace (cfg : AppCfg) (i : Nat) (key_url : String)
    (cache : KeyCache) :
    ∀ u ∈ (appFetchKey cfg i key_url cache).2, u = key_url := by
  intro u hu
  simp only [appFetchKey] at hu
  split at hu
  · simp at hu
  · split at hu <;> simp_all

/-- Every URL the app.py segment step hands to the HTTP client has
passed `is_safe_url`. -/
theorem appProcessSegment_trace_safe (cfg : AppCfg) (ms i : Nat) (base : String)
    (cache : KeyCache) (seg : M3Segment) :
    ∀ u ∈ (appProcessSegment cfg ms i base cache seg).2,
      is_safe_url cfg.r u = true := by
  intro u hu
  simp only [appProcessSegment] at hu
  split at hu
  · simp at hu
  · rename_i hsafe
    rw [not_not] at hsafe
    split at hu
    · simp at hu; subst hu; exact hsafe
    · split at hu
      · simp at hu; subst hu; exact hsafe
      · split at hu
        · simp at hu; subst hu; exact hsafe
        · split at hu
          · simp at hu; subst hu; exact hsafe
          · split at hu
            · simp at hu; subst hu; exact hsafe
            · split at hu
              · simp at hu; subst hu; exact hsafe
              · split at hu
                · simp at hu; subst hu; exact hsafe
                · rename_i ku hku
                  split at hu
                  · simp at hu; subst hu; exact hsafe
                  · rename_i hksafe
                    rw [not_not] at hksafe
                    split at hu
                    · rename_i m t heq
                      simp at hu
                      rcases hu with rfl | hmem
                      · exact hsafe
                      · have h3 := appFetchKey_trace cfg i
                          (cfg.urljoinF base ku) cache u (by rw [heq]; exact hmem)
                        rw [h3]; exact hksafe
                    · rename_i kb cache1 t heq
                      split at hu <;>
                        (simp at hu
                         rcases hu with rfl | hmem
                         · exact hsafe
                         · have h3 := appFetchKey_trace cfg i
                             (cfg.urljoinF base ku) cache u (by rw [heq]; exact hmem)
                           rw [h3]; exact hksafe)

theorem appLoopGo_trace_safe (cfg : AppCfg) (ms : Nat) (base : String) :
    ∀ (segs : List M3Segment) (i : Nat) (cache : KeyCache) (outB : List Nat)
      (trAcc : List String),
      (∀ u ∈ trAcc, is_safe_url cfg.r u = true) →
      ∀ u ∈ (appLoopGo cfg ms base segs i cache outB trAcc).trace,
        is_safe_url cfg.r u = true := by
  intro segs
  induction segs with
  | nil => intro i cache outB trAcc hacc u hu; exact hacc u hu
  | cons seg rest ih =>
    intro i cache outB trAcc hacc u hu
    unfold appLoopGo at hu
    cases hstep : appProcessSegment cfg ms i base cache seg with
    | mk res t =>
      rw [hstep] at hu
      have hstept := appProcessSegment_trace_safe cfg ms i base cache seg
      rw [hstep] at hstept
      cases res with
      | error m =>
        simp only [AppRun.mk.injEq] at hu
        rcases List.mem_append.mp hu with h | h
        · exact hacc u h
        · exact hstept u h
      | ok pc =>
        obtain ⟨payload, cache1⟩ := pc
        refine ih (i + 1) cache1 (outB ++ payload) (trAcc ++ t) ?_ u hu
        intro v hv
        rcases List.mem_append.mp hv with h | h
        · exact hacc v h
        · exact hstept v h

/-- **C1** (counterexample): the claim says every outbound fetch of the
segment pipeline is guarded by the URL safety filter.  The
`DownloadTask` pipeline has no filter: running it on a segment whose
URL is the loopback address `http://127.0.0.1/a.ts` — rejected by
`is_safe_url` — performs the HTTP GET anyway (the URL appears in the
fetch trace) and the bytes are written. -/
theorem C1_counterexample :
    ((download_segments c1net aesId optsTS schedClear 5
        {segments := [c1seg]} {}).map (fun p => p.1.1.trace)).getD [] =
      ["http://127.0.0.1/a.ts"] ∧
    ((download_segments c1net aesId optsTS schedClear 5
        {segments := [c1seg]} {}).map (fun p => p.1.2.tsFile)).getD none =
      some [0xaa] ∧
    is_safe_url noResolver "http://127.0.0.1/a.ts" = false :=
  ⟨rfl, rfl, by decide⟩

/-- **C1** (amended): the safety guarantee holds for the app.py
pipeline only.  In `download_m3u8`, every URL handed to the HTTP client
(segment URLs, and key URLs on a cache miss) has passed `is_safe_url`
first, and a segment whose URL fails the filter aborts the download
with an error before any bytes are fetched.  The `DownloadTask`
pipeline in downloader.py applies no safety filter at all. -/
theorem C1_amended (cfg : AppCfg) (ms : Nat) (base : String)
    (segs : List M3Segment) :
    (∀ u ∈ (download_m3u8_loop cfg ms base segs).trace,
      is_safe_url cfg.r u = true) ∧
    (∀ (i : Nat) (cache : KeyCache) (seg : M3Segment),
      is_safe_url cfg.r (cfg.urljoinF base seg.uri) = false →
      appProcessSegment cfg ms i base cache seg =
        (.error ("segment " ++ toString (i + 1) ++
          " url points at internal network"), [])) := by
  constructor
  · exact appLoopGo_trace_safe cfg ms base segs 0 [] [] [] (by simp)
  · intro i cache seg hun
    simp only [appProcessSegment]
    rw [if_pos (by simp [hun])]

theorem C1_amended_witness :
    is_safe_url egCfg.r "http://example.com/a.ts" = true ∧
    appProcessSegment egCfg 0 0 "" []
        {uri := "http://10.0.0.1/a.ts", duration := none, key := none,
         absolute_uri := none} =
      (.error "segment 1 url points at internal network", []) :=
  ⟨(C1_amended egCfg 0 "" [egSeg]).1 "http://example.com/a.ts" (by decide),
   (C1_amended egCfg 0 "" []).2 0 []
     {uri := "http://10.0.0.1/a.ts", duration := none, key := none,
      absolute_uri := none} (by decide)⟩

/-- **C5** (counterexample): the claim says the temp file is deleted
(best-effort) when the worker exits on `stopped` or `error`.  It is
not: a run that downloads one segment (bytes `[0xaa]`) and is then
cancelled ends with status `stopped` and the temp file still on disk
with those bytes; no output file is written and nothing is deleted. -/
theorem C5_counterexample :
    (runWorker c1net aesId optsTS c5sched true noRemux 10 c5st {}).map
        (fun p => (p.1.status, p.1.tempFile, p.2.tsFile, p.2.partFile)) =
      some (.stopped, some [0xaa], none, none) := rfl

/-- **C5** (amended): the worker never deletes the temp file; on exit
exactly one of the following holds.  On `completed` the temp file has
been moved onto `<title>.ts` (temp gone, partial output untouched); on
`forced` it has been moved onto `<title>.partial.ts` (temp gone, `.ts`
and `.mp4` untouched); on `stopped` no finalisation happens at all:
every output file is exactly as before and the temp file is simply
left as the loop left it (the counterexample exhibits a cancelled run
whose temp file still holds the downloaded bytes).  On `error` the
partial output is untouched, and either the error was raised inside
the segment loop — every output file untouched, temp left as the loop
left it — or it came from the mp4 conversion step, which runs only
after the normal finalisation has already moved the temp file onto
`<title>.ts`: then the temp file is gone by that move (`output_format`
is `"mp4"` and the `.mp4` output is untouched). -/
theorem C5_amended (net : Net) (aes : Aes) (o : DownloadTaskOptions)
    (sched : Sched) (ffm : Bool) (remux : List Nat → Option (List Nat))
    (fuel : Nat) (st0 : DLState) (fs0 : TaskFiles) (st1 : DLState)
    (fs1 : TaskFiles)
    (h : runWorker net aes o sched ffm remux fuel st0 fs0 = some (st1, fs1)) :
    (st1.status = .completed → st1.tempFile = none ∧ fs1.partFile = fs0.partFile) ∧
    (st1.status = .forced → st1.tempFile = none ∧ fs1.tsFile = fs0.tsFile ∧
      fs1.mp4File = fs0.mp4File) ∧
    (st1.status = .stopped → fs1 = fs0) ∧
    (st1.status = .error → fs1.partFile = fs0.partFile ∧
      (fs1 = fs0 ∨ (st1.tempFile = none ∧ o.output_format = "mp4" ∧
        fs1.mp4File = fs0.mp4File))) := by
  simp only [runWorker] at h
  rcases hds : download_segments net aes o sched fuel {st0 with status := .downloading, message := some "Downloading segments"} fs0 with _ | ⟨⟨stR, fsR⟩, err⟩
  · rw [hds] at h; simp at h
  · rw [hds] at h
    have hspec := download_segments_spec net aes o sched fuel
      {st0 with status := .downloading, message := some "Downloading segments"}
      fs0 stR fsR err (Or.inl rfl) hds
    rcases hspec with ⟨he, hstop, hfs⟩ | ⟨e, he, hlv, hfs⟩ |
      ⟨he, hforced, htemp, hts, hmp4⟩ | ⟨he, hlv, htemp, hpart, hmp4⟩
    · -- stop return
      subst he
      dsimp only at h
      rw [if_pos (Or.inl hstop)] at h
      simp only [Option.some.injEq, Prod.mk.injEq] at h
      obtain ⟨h1, h2⟩ := h
      subst h1; subst h2
      refine ⟨?_, ?_, ?_, ?_⟩ <;> intro hx <;> simp_all
    · -- propagated exception
      subst he
      cases e with
      | downloadError m =>
        dsimp only at h
        simp only [Option.some.injEq, Prod.mk.injEq] at h
        obtain ⟨h1, h2⟩ := h
        subst h1; subst h2
        refine ⟨?_, ?_, ?_, ?_⟩ <;> intro hx <;> simp_all
      | pyError m =>
        dsimp only at h
        simp only [Option.some.injEq, Prod.mk.injEq] at h
        obtain ⟨h1, h2⟩ := h
        subst h1; subst h2
        refine ⟨?_, ?_, ?_, ?_⟩ <;> intro hx <;> simp_all
    · -- forced finalisation
      subst he
      dsimp only at h
      rw [if_pos (Or.inr hforced)] at h
      simp only [Option.some.injEq, Prod.mk.injEq] at h
      obtain ⟨h1, h2⟩ := h
      subst h1; subst h2
      refine ⟨?_, ?_, ?_, ?_⟩ <;> intro hx <;> simp_all
    · -- normal finalisation, then optional conversion
      subst he
      dsimp only at h
      rw [if_neg (by rcases hlv with hd | hd <;> simp [hd])] at h
      split at h
      · -- conversion raised a DownloadError
        rename_i m heq
        simp only [Option.some.injEq, Prod.mk.injEq] at h
        obtain ⟨h1, h2⟩ := h
        subst h1; subst h2
        have hfmt : o.output_format = "mp4" := by
          by_cases hf : o.output_format = "mp4"
          · exact hf
          · rw [if_neg hf] at heq; simp at heq
        refine ⟨?_, ?_, ?_, ?_⟩ <;> intro hx
        · simp at hx
        · simp at hx
        · simp at hx
        · exact ⟨hpart, Or.inr ⟨htemp, hfmt, hmp4⟩⟩
      · -- conversion raised some other exception
        rename_i m heq
        simp only [Option.some.injEq, Prod.mk.injEq] at h
        obtain ⟨h1, h2⟩ := h
        subst h1; subst h2
        have hfmt : o.output_format = "mp4" := by
          by_cases hf : o.output_format = "mp4"
          · exact hf
          · rw [if_neg hf] at heq; simp at heq
        refine ⟨?_, ?_, ?_, ?_⟩ <;> intro hx
        · simp at hx
        · simp at hx
        · simp at hx
        · exact ⟨hpart, Or.inr ⟨htemp, hfmt, hmp4⟩⟩
      · -- conversion (or the ts path) returned normally
        rename_i stC fsC heq
        have hfacts : stC.tempFile = none ∧ fsC.partFile = fs0.partFile ∧
            stC.status ≠ TStatus.error := by
          split at heq
          · have hcs := convert_to_mp4_spec ffm remux stR fsR stC fsC heq
            refine ⟨by rw [hcs.1]; exact htemp, by rw [hcs.2.1]; exact hpart, ?_⟩
            rcases hcs.2.2 with hsame | hcomp
            · rw [hsame]; rcases hlv with hd | hd <;> simp [hd]
            · rw [hcomp]; simp
          · simp only [Except.ok.injEq, Prod.mk.injEq] at heq
            obtain ⟨hq1, hq2⟩ := heq
            subst hq1; subst hq2
            refine ⟨htemp, hpart, ?_⟩
            rcases hlv with hd | hd <;> simp [hd]
        rw [if_pos hfacts.2.2] at h
        simp only [Option.some.injEq, Prod.mk.injEq] at h
        obtain ⟨h1, h2⟩ := h
        subst h1; subst h2
        refine ⟨?_, ?_, ?_, ?_⟩ <;> intro hx
        · exact ⟨hfacts.1, hfacts.2.1⟩
        · simp at hx
        · simp at hx
        · simp at hx

theorem C5_amended_witness :
    (c5wOut.1.tempFile = none ∧ c5wOut.2.partFile = ({} : TaskFiles).partFile) ∧
    (c5wErr.1.status = .error ∧ c5wErr.2.partFile = ({} : TaskFiles).partFile ∧
      (c5wErr.2 = ({} : TaskFiles) ∨
        (c5wErr.1.tempFile = none ∧ optsMp4.output_format = "mp4" ∧
          c5wErr.2.mp4File = ({} : TaskFiles).mp4File))) :=
  ⟨(C5_amended c1net aesId optsTS schedClear true noRemux 10 c5wSt {} c5wOut.1
      c5wOut.2 (by rfl)).1 (by rfl),
   by
    refine ⟨by rfl, ?_⟩
    exact (C5_amended c1net aesId optsMp4 schedClear true remuxFail 10 c5wSt {}
      c5wErr.1 c5wErr.2 (by rfl)).2.2.2 (by rfl)⟩

end M3u8V
